import Mathlib

/-! Shallow embedding of the timing / resolution / transition core of
`jira_automation.py` (Jira Support Task Automation).

Conventions of the embedding:
* A naive civil datetime (Python `datetime.datetime` without tzinfo) is an
  `Int`: microseconds since the civil epoch 1970-01-01 00:00:00.  Python's
  datetime comparison on naive values coincides with `Int` order.
* A time-of-day (Python `datetime.time`) is an `Int` in `[0, usPerDay)`:
  microseconds since midnight.
* A timezone-aware datetime (the result of `strptime` with `%z`) keeps the
  civil fields and the UTC offset separately, as Python does.
* Remote calls and the wall clock are passed in explicitly: the clock is a
  sequence of `now_wib()` readings indexed by read count, remote responses
  are values of small inductive types describing each outcome the `try`
  blocks in the source distinguish.
-/

/-- Microseconds in one day. -/
def usPerDay : Int := 86400000000

/-- Microseconds in one hour. -/
def usPerHour : Int := 3600000000

/-- Python `t.time()` of a naive datetime: microseconds since midnight. -/
def todOf (t : Int) : Int := t % usPerDay

/-- Python `t.date()` of a naive datetime: days since the civil epoch. -/
def dateOf (t : Int) : Int := t / usPerDay

/-- Python `t.hour` of a naive datetime. -/
def hourOf (t : Int) : Int := todOf t / usPerHour

/-- The timezone `_WIB = datetime.timezone(datetime.timedelta(hours=7))`, as a UTC offset
in microseconds.  A fixed offset: no daylight-saving rule exists. -/
def WIB_OFFSET : Int := 7 * usPerHour

/-- Python `datetime.datetime.now(tz=...)`: reads the current UTC instant
and renders it as a civil datetime.  With an explicit `tz` argument the host
machine's configured local offset plays no part; with `tz=None` (a bare
`datetime.now()`) the host offset is applied.  `utcInstant` is the current
instant in microseconds since the epoch. -/
def pyDatetimeNow (utcInstant hostOffset : Int) (tz : Option Int) : Int :=
  match tz with
  | some off => utcInstant + off
  | none => utcInstant + hostOffset

/-- Function `now_wib()`: `datetime.datetime.now(tz=_WIB).replace(tzinfo=None)` —
the current instant as a naive WIB civil datetime. -/
def now_wib (utcInstant hostOffset : Int) : Int :=
  pyDatetimeNow utcInstant hostOffset (some WIB_OFFSET)

/-- Function `get_current_time_slot()`: auto-detect the slot from the current WIB
hour.  The argument is the `now_wib()` reading. -/
def get_current_time_slot (now : Int) : String :=
  let hour := hourOf now
  if hour < 12 then "8AM"
  else if hour < 13 then "12PM"
  else if hour < 17 then "1PM"
  else "5PM"

/-- One entry of the `transitions` list returned by the Jira API:
`{id, name}`. -/
structure Transition where
  id : String
  name : String
deriving DecidableEq, Repr

/-- Python `str.lower()`, character-wise (the transition names involved are
ASCII, where this agrees with Python's Unicode lowering). -/
def strLower (s : String) : String := String.mk (s.data.map Char.toLower)

/-- Function `find_transition_id(transitions, transition_name)`: first transition
whose lower-cased name equals the lower-cased requested name; `None` when
none matches. -/
def find_transition_id (transitions : List Transition) (transition_name : String) :
    Option String :=
  let target := strLower transition_name
  match transitions with
  | [] => none
  | t :: rest =>
      if strLower t.name = target then some t.id
      else find_transition_id rest transition_name

/-- One Jira issue as consumed by the core: `key` plus the fields requested
by `search_issues` (`summary`, `status` name, and the two plan timestamp
custom fields, each possibly absent). -/
structure Issue where
  key : String
  summary : Option String
  status : Option String
  customfield_10093 : Option String
  customfield_10094 : Option String
deriving DecidableEq, Repr

/-- One entry of the `SCHEDULE` dict. -/
structure SlotConfig where
  target_time : Int
  from_status : String
  transition_name : String
  description : String
deriving DecidableEq, Repr

/-- The `SCHEDULE` dict: the four slots and their configuration; lookup of
any other key misses. -/
def SCHEDULE (slot : String) : Option SlotConfig :=
  if slot = "8AM" then
    some ⟨8 * usPerHour, "SUPPORT OPEN", "INPROGRESS SUPPORT",
          "Start work (time from cf[10093])"⟩
  else if slot = "12PM" then
    some ⟨12 * usPerHour, "SUPPORT INPROGRESS", "Hold Support",
          "Lunch break (pause)"⟩
  else if slot = "1PM" then
    some ⟨13 * usPerHour, "SUPPORT HOLD", "HOLD ke INPROGRESS SUPPORT",
          "Resume work"⟩
  else if slot = "5PM" then
    some ⟨17 * usPerHour, "SUPPORT INPROGRESS", "Support Done",
          "End work (time from cf[10094])"⟩
  else none

/-! Parsing: `parse_issue_datetime` is strptime with the two `_JIRA_TS_FORMATS`,

`'%Y-%m-%dT%H:%M:%S.%f%z'` then `'%Y-%m-%dT%H:%M:%S%z'`.  Numeric
directives are lenient on width the way CPython's `_strptime` is (`%Y` up
to four digits, the two-digit fields one or two digits, `%f` one to six
digits); `%z` accepts `Z`, `±HHMM` and `±HH:MM`; the resulting field values
must form a valid calendar date and time or the format fails. -/

/-- A timezone-aware datetime as produced by `strptime` with `%z`: the
civil fields (microseconds since the civil epoch) plus the UTC offset. -/
structure AwareDT where
  civilMicro : Int
  offsetMicro : Int
deriving DecidableEq, Repr

/-- Numeric value of an ASCII digit. -/
def digitVal (c : Char) : Option Nat :=
  if '0' ≤ c ∧ c ≤ '9' then some (c.toNat - 48) else none

/-- Consume up to `maxD` leading digits, accumulating their value and
count; returns `(value, count, rest)`. -/
def takeDigits : Nat → List Char → Nat → Nat → Nat × Nat × List Char
  | 0, cs, acc, cnt => (acc, cnt, cs)
  | _ + 1, [], acc, cnt => (acc, cnt, [])
  | m + 1, c :: cs, acc, cnt =>
      match digitVal c with
      | some d => takeDigits m cs (acc * 10 + d) (cnt + 1)
      | none => (acc, cnt, c :: cs)

/-- A numeric field of at least `minD` and at most `maxD` digits. -/
def parseNumMax (minD maxD : Nat) (cs : List Char) : Option (Nat × List Char) :=
  let r := takeDigits maxD cs 0 0
  if minD ≤ r.2.1 then some (r.1, r.2.2) else none

/-- Require a specific literal character. -/
def expectChar (c : Char) : List Char → Option (List Char)
  | [] => none
  | x :: xs => if x = c then some xs else none

/-- Directive `%f`: one to six fractional digits, scaled to microseconds. -/
def parseFraction (cs : List Char) : Option (Nat × List Char) :=
  let r := takeDigits 6 cs 0 0
  if 1 ≤ r.2.1 then some (r.1 * 10 ^ (6 - r.2.1), r.2.2) else none

/-- Directive `%z`: `Z`, `±HHMM` or `±HH:MM`, as a UTC offset in microseconds. -/
def parseOffset (cs : List Char) : Option (Int × List Char) :=
  match cs with
  | [] => none
  | 'Z' :: rest => some (0, rest)
  | c :: rest =>
      if c = '+' ∨ c = '-' then
        match parseNumMax 2 2 rest with
        | none => none
        | some (hh, rest2) =>
            let rest3 := match rest2 with
              | ':' :: r => r
              | r => r
            match parseNumMax 2 2 rest3 with
            | none => none
            | some (mm, rest4) =>
                if hh ≤ 23 ∧ mm ≤ 59 then
                  let mag : Int := ((hh * 3600 + mm * 60) * 1000000 : Nat)
                  some (if c = '-' then -mag else mag, rest4)
                else none
      else none

/-- Gregorian leap-year rule. -/
def isLeapYear (y : Nat) : Bool :=
  y % 4 == 0 && (y % 100 != 0 || y % 400 == 0)

/-- Length of a month, as `datetime` validates it. -/
def daysInMonth (y m : Nat) : Nat :=
  if m = 2 then (if isLeapYear y then 29 else 28)
  else if m = 4 ∨ m = 6 ∨ m = 9 ∨ m = 11 then 30
  else 31

/-- Days from the civil epoch 1970-01-01 to the given Gregorian date
(standard days-from-civil computation). -/
def daysFromCivil (y m d : Nat) : Int :=
  let yi : Int := if m ≤ 2 then (y : Int) - 1 else (y : Int)
  let era : Int := yi / 400
  let yoe : Int := yi - era * 400
  let doy : Int := (153 * ((m : Int) + (if 2 < m then -3 else 9)) + 2) / 5 + (d : Int) - 1
  let doe : Int := yoe * 365 + yoe / 4 - yoe / 100 + doy
  era * 146097 + doe - 719468

/-- Fields `%Y-%m-%d`: year, month, day and the remaining input. -/
def parseDatePart (cs : List Char) : Option (Nat × Nat × Nat × List Char) :=
  (parseNumMax 1 4 cs).bind fun py =>
  (expectChar '-' py.2).bind fun cs1 =>
  (parseNumMax 1 2 cs1).bind fun pmo =>
  (expectChar '-' pmo.2).bind fun cs2 =>
  (parseNumMax 1 2 cs2).bind fun pd =>
  some (py.1, pmo.1, pd.1, pd.2)

/-- Fields `%H:%M:%S`: hour, minute, second and the remaining input. -/
def parseTimePart (cs : List Char) : Option (Nat × Nat × Nat × List Char) :=
  (parseNumMax 1 2 cs).bind fun ph =>
  (expectChar ':' ph.2).bind fun cs1 =>
  (parseNumMax 1 2 cs1).bind fun pmi =>
  (expectChar ':' pmi.2).bind fun cs2 =>
  (parseNumMax 1 2 cs2).bind fun ps =>
  some (ph.1, pmi.1, ps.1, ps.2)

/-- Directive `.%f` in the first format; nothing in the second. -/
def parseFracPart (withFraction : Bool) (cs : List Char) : Option (Nat × List Char) :=
  if withFraction then (expectChar '.' cs).bind parseFraction
  else some (0, cs)

/-- The range validation `datetime` applies to the parsed fields. -/
def validDateTime (y mo d h mi s : Nat) : Bool :=
  1 ≤ y && 1 ≤ mo && mo ≤ 12 && 1 ≤ d && d ≤ daysInMonth y mo &&
    h ≤ 23 && mi ≤ 59 && s ≤ 59

/-- Assemble the aware datetime from parsed fields. -/
def mkAwareDT (y mo d h mi s frac : Nat) (off : Int) : AwareDT :=
  { civilMicro := daysFromCivil y mo d * usPerDay +
      (((h * 3600 + mi * 60 + s) * 1000000 + frac : Nat) : Int),
    offsetMicro := off }

/-- One `strptime(value, fmt)` attempt for one of the two `_JIRA_TS_FORMATS`;
`withFraction` selects the `.%f` variant. -/
def parseJiraFormat (withFraction : Bool) (cs : List Char) : Option AwareDT :=
  (parseDatePart cs).bind fun pd =>
  (expectChar 'T' pd.2.2.2).bind fun csT =>
  (parseTimePart csT).bind fun pt =>
  (parseFracPart withFraction pt.2.2.2).bind fun pf =>
  (parseOffset pf.2).bind fun poff =>
  if poff.2.isEmpty && validDateTime pd.1 pd.2.1 pd.2.2.1 pt.1 pt.2.1 pt.2.2.1 then
    some (mkAwareDT pd.1 pd.2.1 pd.2.2.1 pt.1 pt.2.1 pt.2.2.1 pf.1 poff.1)
  else none

/-- Function `parse_issue_datetime(field_value)`: `None` (absent) and the empty
string are falsy and yield `None`; otherwise the two formats are tried in
order and a parse failure yields `None` (with a logged warning). -/
def parse_issue_datetime (field_value : Option String) : Option AwareDT :=
  match field_value with
  | none => none
  | some s =>
      if s = "" then none
      else
        match parseJiraFormat true s.toList with
        | some dt => some dt
        | none => parseJiraFormat false s.toList

/-- Conversion `dt.astimezone(_WIB).replace(tzinfo=None)`: the same instant as a naive
WIB civil datetime. -/
def toWibNaive (dt : AwareDT) : Int := dt.civilMicro - dt.offsetMicro + WIB_OFFSET

/-- Function `_resolve_target_time_for_issue(issue, time_slot, fallback)` (the
leading underscore is dropped for Lean).  `todayNow` is the `now_wib()`
reading the function takes for `today_wib`.  For the `8AM` slot the plan
start field `customfield_10093` is read, for `5PM` the plan end field
`customfield_10094`; all other slots return the fixed fallback without
touching the fields.  An unparseable or missing field falls back; a parsed
timestamp whose WIB date is not today yields `None` (= SKIP). -/
def resolve_target_time_for_issue (issue : Issue) (time_slot : String)
    (fallback : Int) (todayNow : Int) : Option Int :=
  let raw? : Option (Option String) :=
    if time_slot = "8AM" then some issue.customfield_10093
    else if time_slot = "5PM" then some issue.customfield_10094
    else none
  match raw? with
  | none => some fallback
  | some raw =>
      match parse_issue_datetime raw with
      | none => some fallback
      | some dt =>
          let wib_dt := toWibNaive dt
          let today_wib := dateOf todayNow
          if dateOf wib_dt ≠ today_wib then none
          else some (todOf wib_dt)

/-- The recomputed target instant `now.replace(hour=target_time.hour, minute=..., second=...,
microsecond=...)`: the same WIB date as `now` at time-of-day `T`. -/
def targetDtOf (now T : Int) : Int := dateOf now * usPerDay + T

/-- The return test of one `while True` iteration of
`wait_for_precise_time`: `now >= target_dt`. -/
def waitReached (now T : Int) : Bool := decide (targetDtOf now T ≤ now)

/-- Function `wait_for_precise_time(target_time)` as a poll-indexed search: `clock i`
is the `now_wib()` reading of the i-th loop iteration, and the result is the
index of the iteration at which the function returns (`none` when it has not
returned within `fuel` iterations).  The sleeps between iterations vary in
length per the remaining-time brackets of the source (30 s / 0.5 s / 1 ms /
0.1 ms / busy-wait) but have no influence on which iteration first satisfies
the return test, so they are absorbed into the clock sequence. -/
def wait_for_precise_time (clock : Nat → Int) (T : Int) : Nat → Nat → Option Nat
  | 0, _ => none
  | fuel + 1, i =>
      if waitReached (clock i) T then some i
      else wait_for_precise_time clock T fuel (i + 1)

/-- Outcome of the `POST .../transitions` remote call, as the `try` block of
`transition_issue` distinguishes it: acknowledged (2xx), an `HTTPError`
raised by `raise_for_status` (non-2xx), or any other exception (timeout,
transport failure). -/
inductive RemoteResult where
  | ok
  | httpError (detail : String)
  | exc (detail : String)
deriving DecidableEq, Repr

/-- Whether the remote call was acknowledged. -/
def RemoteResult.succeeded : RemoteResult → Bool
  | .ok => true
  | .httpError _ => false
  | .exc _ => false

/-- Function `transition_issue(issue_key, transition_id)` returns
`(success, timestamp_before, timestamp_after)`.  `clock` is the sequence of
`get_precise_timestamp()` readings (each a `now_wib()` value at microsecond
precision) and `tick` the index of the next reading.  `timestamp_before` is
read just before the remote call.  On acknowledgment the after-timestamp is
the reading taken right after the call returns.  On a non-2xx response the
source reads once after the call returns (line before `raise_for_status`)
and then reads again inside the `except HTTPError` handler, returning the
later reading — hence `tick + 2`.  When the call itself raises, the only
after-reading happens in the generic handler. -/
def transition_issue (clock : Nat → Int) (tick : Nat) (remote : RemoteResult) :
    Bool × Int × Int :=
  let timestamp_before := clock tick
  match remote with
  | .ok => (true, timestamp_before, clock (tick + 1))
  | .httpError _ => (false, timestamp_before, clock (tick + 2))
  | .exc _ => (false, timestamp_before, clock (tick + 1))

/-- Result of the search call as the `try` block of `search_issues`
distinguishes it: a response carrying a parsed `issues` list and whether
`raise_for_status` passes, or a raised exception (timeout, transport
failure, malformed body). -/
inductive SearchResponse where
  | response (issues : List Issue) (httpOk : Bool)
  | failure (detail : String)

/-- Function `search_issues(jql)`: the parsed issues on a 2xx response; the empty
list when `raise_for_status` raises (non-2xx) or any other exception
occurs. -/
def search_issues (resp : SearchResponse) : List Issue :=
  match resp with
  | .response issues true => issues
  | .response _ false => []
  | .failure _ => []

/-- The remote collaborators of one `run_automation` invocation:
the search response, each issue's currently available transitions
(`get_transitions`, already `[]` on its own error paths), the outcome of
the apply-transition call per (issue key, transition id), and the
`now_wib()` reading used for the date guard. -/
structure JiraEnv where
  searchResponse : SearchResponse
  transitionsFor : String → List Transition
  transitionResult : String → String → RemoteResult
  todayNow : Int

/-- Result of `_execute_transition_for_issue` for one issue, as the logs
distinguish it: no transitions available (skip), named transition not among
the available ones (logged with the available names), or a transition call
attempted with its success flag — the first component of
`transition_issue`'s triple, i.e. `RemoteResult.succeeded`. -/
inductive ExecResult where
  | noTransitions
  | transitionNotFound (available : List String)
  | attempted (success : Bool)
deriving DecidableEq, Repr

/-- Function `_execute_transition_for_issue(issue, transition_name)` (leading
underscore dropped): fetch the live transitions, resolve the name
case-insensitively, execute. -/
def execute_transition_for_issue (env : JiraEnv) (issue : Issue)
    (transition_name : String) : ExecResult :=
  let transitions := env.transitionsFor issue.key
  if transitions.isEmpty then .noTransitions
  else
    match find_transition_id transitions transition_name with
    | none => .transitionNotFound (transitions.map Transition.name)
    | some transition_id =>
        .attempted (env.transitionResult issue.key transition_id).succeeded

/-- Per-issue outcome of the `for issue in issues` loop of
`run_automation`: either the date-guard SKIP (`continue`), or the issue was
processed — `waitedTarget` is the resolved time-of-day passed to
`wait_for_precise_time` when waiting is enabled, and `r` the execution
result. -/
inductive IssueOutcome where
  | skippedDateMismatch
  | processed (waitedTarget : Int) (r : ExecResult)
deriving DecidableEq, Repr

/-- The body of the `for issue in issues` loop of `run_automation`, for one
issue. -/
def process_issue_in_slot (env : JiraEnv) (time_slot : String) (fallback : Int)
    (transition_name : String) (issue : Issue) : IssueOutcome :=
  match resolve_target_time_for_issue issue time_slot fallback env.todayNow with
  | none => .skippedDateMismatch
  | some target =>
      .processed target (execute_transition_for_issue env issue transition_name)

/-- The `for issue in issues` loop of `run_automation`: each issue handled
sequentially and completely (resolve, wait, execute) before the next; the
loop body has no `break` and no uncaught raise, only the date-guard
`continue`. -/
def process_issues (env : JiraEnv) (time_slot : String) (fallback : Int)
    (transition_name : String) : List Issue → List (String × IssueOutcome)
  | [] => []
  | issue :: rest =>
      (issue.key, process_issue_in_slot env time_slot fallback transition_name issue) ::
        process_issues env time_slot fallback transition_name rest

/-- Function `run_automation(time_slot)` as the list of per-issue outcomes it
produces: invalid slot and empty (or failed) search produce no outcomes —
no waits and no transition calls happen.  The `wait_for_exact_time` flag
only selects whether `wait_for_precise_time` is called on each processed
issue's `waitedTarget`; it does not change the outcomes. -/
def run_automation (env : JiraEnv) (time_slot : String) :
    List (String × IssueOutcome) :=
  match SCHEDULE time_slot with
  | none => []
  | some config =>
      let issues := search_issues env.searchResponse
      if issues.isEmpty then []
      else process_issues env time_slot config.target_time config.transition_name issues

/-! Theorems -/

/-- Helper: the WIB hour of any naive datetime lies in `[0, 24)`. -/
theorem hourOf_bounds (t : Int) : 0 ≤ hourOf t ∧ hourOf t < 24 := by
  unfold hourOf todOf usPerDay usPerHour
  constructor <;> omega

/-- C9: `now_wib` depends only on the current UTC instant, never on the host
machine's configured local offset, and always returns that instant shifted by
exactly +7 hours as a naive civil datetime; the offset is a constant, so no
daylight-saving adjustment is ever applied. -/
theorem now_wib_host_independent (utcInstant hostOffset hostOffsetB : Int) :
    now_wib utcInstant hostOffset = now_wib utcInstant hostOffsetB ∧
    now_wib utcInstant hostOffset = utcInstant + 7 * usPerHour := by
  constructor <;> rfl

/-- C10: `get_current_time_slot` partitions the 24 WIB hours into the four
slots: hours 0–11 map to `8AM`, hour 12 to `12PM`, hours 13–16 to `1PM`, and
hours 17–23 to `5PM`; every invocation yields exactly one of the four slots,
and in particular any time before noon WIB — even just after midnight —
selects the `8AM` slot. -/
theorem get_current_time_slot_partition (now : Int) :
    (0 ≤ hourOf now ∧ hourOf now < 24) ∧
    (get_current_time_slot now = "8AM" ↔ hourOf now < 12) ∧
    (get_current_time_slot now = "12PM" ↔ hourOf now = 12) ∧
    (get_current_time_slot now = "1PM" ↔ (13 ≤ hourOf now ∧ hourOf now < 17)) ∧
    (get_current_time_slot now = "5PM" ↔ 17 ≤ hourOf now) := by
  have hb := hourOf_bounds now
  unfold get_current_time_slot
  by_cases h12 : hourOf now < 12
  · simp [h12]; omega
  · by_cases h13 : hourOf now < 13
    · simp [h12, h13]; omega
    · by_cases h17 : hourOf now < 17
      · simp [h12, h13, h17]; omega
      · simp [h12, h13, h17]; omega

/-- C4 helper characterisation of `find_transition_id`, proved by list
induction: soundness (a returned id belongs to a case-insensitively matching
transition), completeness in the negative (no match yields `None`), and the
first-match rule. -/
theorem find_transition_id_char (ts : List Transition) (nm : String) :
    (∀ r, find_transition_id ts nm = some r →
        ∃ t ∈ ts, strLower t.name = strLower nm ∧ t.id = r) ∧
    ((∀ t ∈ ts, strLower t.name ≠ strLower nm) → find_transition_id ts nm = none) := by
  induction ts with
  | nil => simp [find_transition_id]
  | cons t rest ih =>
      by_cases hm : strLower t.name = strLower nm
      · refine ⟨?_, ?_⟩
        · intro r hr
          simp only [find_transition_id, hm, if_pos rfl] at hr
          exact ⟨t, List.mem_cons_self t rest, hm, by simpa using hr⟩
        · intro hnone
          exact absurd hm (hnone t (List.mem_cons_self t rest))
      · refine ⟨?_, ?_⟩
        · intro r hr
          simp only [find_transition_id, if_neg hm] at hr
          obtain ⟨u, hu, hun, hui⟩ := ih.1 r hr
          exact ⟨u, List.mem_cons_of_mem t hu, hun, hui⟩
        · intro hnone
          simp only [find_transition_id, if_neg hm]
          exact ih.2 (fun u hu => hnone u (List.mem_cons_of_mem t hu))

/-- Helper: the loop's return test `now >= now.replace(time := T)` holds
exactly when the WIB time-of-day of `now` has reached `T`. -/
theorem waitReached_iff (now T : Int) :
    waitReached now T = true ↔ T ≤ todOf now := by
  unfold waitReached targetDtOf dateOf todOf usPerDay
  simp only [decide_eq_true_eq]
  omega

/-- Helper: soundness of the wait loop from an arbitrary start index — a
returned index is at least the start, satisfies the return test, and no
earlier polled index did. -/
theorem wait_loop_sound (clock : Nat → Int) (T : Int) : ∀ (fuel s i : Nat),
    wait_for_precise_time clock T fuel s = some i →
    s ≤ i ∧ T ≤ todOf (clock i) ∧ ∀ j, s ≤ j → j < i → todOf (clock j) < T := by
  intro fuel
  induction fuel with
  | zero => intro s i h; simp [wait_for_precise_time] at h
  | succ n ih =>
      intro s i h
      by_cases hr : waitReached (clock s) T = true
      · simp [wait_for_precise_time, hr] at h
        subst h
        exact ⟨le_refl s, (waitReached_iff _ _).1 hr,
          fun j hj1 hj2 => absurd (lt_of_le_of_lt hj1 hj2) (lt_irrefl s)⟩
      · simp [wait_for_precise_time, hr] at h
        obtain ⟨hs, hT, hmin⟩ := ih (s + 1) i h
        refine ⟨by omega, hT, fun j hj1 hj2 => ?_⟩
        rcases eq_or_lt_of_le hj1 with hj | hj
        · subst hj
          exact not_le.1 fun hc => hr ((waitReached_iff _ _).2 hc)
        · exact hmin j (by omega) hj2

/-- Helper: the wait loop does return once a polled reading satisfies the
return test within the fuel bound. -/
theorem wait_loop_reaches (clock : Nat → Int) (T : Int) : ∀ (fuel s k : Nat),
    k < fuel → waitReached (clock (s + k)) T = true →
    ∃ i, wait_for_precise_time clock T fuel s = some i ∧ i ≤ s + k := by
  intro fuel
  induction fuel with
  | zero => intro s k hk; omega
  | succ n ih =>
      intro s k hk hreach
      by_cases hr : waitReached (clock s) T = true
      · exact ⟨s, by simp [wait_for_precise_time, hr], Nat.le_add_right s k⟩
      · cases k with
        | zero => rw [Nat.add_zero] at hreach; exact absurd hreach hr
        | succ m =>
            obtain ⟨i, hi, hle⟩ := ih (s + 1) m (by omega)
              (by rw [show s + 1 + m = s + (m + 1) by omega]; exact hreach)
            refine ⟨i, ?_, by omega⟩
            simp [wait_for_precise_time, hr]
            exact hi

/-- C1: for every target time-of-day `T`, `wait_for_precise_time(T)`
returns only when the WIB time-of-day has reached `T`: when the first
reading already satisfies `T` it returns at poll 0 — before any sleep —
and otherwise it keeps polling and returns at the first poll whose WIB
reading has time-of-day `≥ T` (and does return once such a poll occurs
within the fuel bound); at every earlier poll the time-of-day was `< T`. -/
theorem wait_for_precise_time_spec (clock : Nat → Int) (T : Int) (fuel : Nat)
    (hfuel : 0 < fuel) :
    (T ≤ todOf (clock 0) → wait_for_precise_time clock T fuel 0 = some 0) ∧
    (∀ i, wait_for_precise_time clock T fuel 0 = some i →
        T ≤ todOf (clock i) ∧ ∀ j, j < i → todOf (clock j) < T) ∧
    (∀ k, k < fuel → T ≤ todOf (clock k) →
        ∃ i, wait_for_precise_time clock T fuel 0 = some i ∧ i ≤ k) := by
  refine ⟨?_, ?_, ?_⟩
  · intro h0
    obtain ⟨n, rfl⟩ := Nat.exists_eq_succ_of_ne_zero (Nat.pos_iff_ne_zero.1 hfuel)
    simp [wait_for_precise_time, (waitReached_iff _ _).2 h0]
  · intro i h
    obtain ⟨_, hT, hmin⟩ := wait_loop_sound clock T fuel 0 i h
    exact ⟨hT, fun j hj => hmin j (Nat.zero_le j) hj⟩
  · intro k hk hT
    obtain ⟨i, hi, hle⟩ := wait_loop_reaches clock T fuel 0 k hk
      (by rw [Nat.zero_add]; exact (waitReached_iff _ _).2 hT)
    exact ⟨i, hi, by omega⟩

/-- Witness for C1: a clock already past the target returns at poll 0. -/
theorem wait_for_precise_time_spec_witness :
    wait_for_precise_time (fun _ => (5 : Int)) 3 10 0 = some 0 :=
  (wait_for_precise_time_spec (fun _ => (5 : Int)) 3 10 (by norm_num)).1 (by decide)

/-- C7: for the fixed slots `12PM` and `1PM`,
`_resolve_target_time_for_issue` returns the slot's fixed fallback time for
every issue — whatever the issue's fields contain, no plan timestamp field
is read or parsed — and never returns SKIP. -/
theorem resolve_fixed_slots_fallback (issue : Issue) (fallback todayNow : Int) :
    resolve_target_time_for_issue issue "12PM" fallback todayNow = some fallback ∧
    resolve_target_time_for_issue issue "1PM" fallback todayNow = some fallback :=
  ⟨rfl, rfl⟩

/-- C2: for the ticket-relative slots, when the relevant plan timestamp
field parses, the resolver SKIPs (returns `none`) exactly when the
timestamp's WIB calendar date differs from today's WIB date — the
time-of-day component is irrelevant — and when the dates match it returns
the timestamp's WIB time-of-day. -/
theorem resolve_ticket_relative_date_guard (issue : Issue) (slot : String)
    (fallback todayNow : Int) (dt : AwareDT)
    (hslot : (slot = "8AM" ∧ parse_issue_datetime issue.customfield_10093 = some dt) ∨
             (slot = "5PM" ∧ parse_issue_datetime issue.customfield_10094 = some dt)) :
    (resolve_target_time_for_issue issue slot fallback todayNow = none ↔
        dateOf (toWibNaive dt) ≠ dateOf todayNow) ∧
    (dateOf (toWibNaive dt) = dateOf todayNow →
        resolve_target_time_for_issue issue slot fallback todayNow =
          some (todOf (toWibNaive dt))) := by
  have hres : resolve_target_time_for_issue issue slot fallback todayNow =
      (if dateOf (toWibNaive dt) ≠ dateOf todayNow then none
       else some (todOf (toWibNaive dt))) := by
    rcases hslot with ⟨hs, hp⟩ | ⟨hs, hp⟩ <;> subst hs <;>
      simp [resolve_target_time_for_issue, hp]
  rw [hres]
  by_cases hd : dateOf (toWibNaive dt) = dateOf todayNow <;> simp [hd]

/-- Witness for C2: a plan-start timestamp of today 08:15 WIB resolves to
08:15 (29 700 000 000 µs after midnight) for the `8AM` slot. -/
theorem resolve_ticket_relative_date_guard_witness :
    resolve_target_time_for_issue
      ⟨"SUP-1", none, none, some "2026-02-23T08:15:00.000+0700", none⟩
      "8AM" 28800000000 1771830000000000 = some 29700000000 := by
  have h := (resolve_ticket_relative_date_guard
      ⟨"SUP-1", none, none, some "2026-02-23T08:15:00.000+0700", none⟩
      "8AM" 28800000000 1771830000000000 ⟨1771834500000000, 25200000000⟩
      (Or.inl ⟨rfl, by decide⟩)).2 (by decide)
  exact h.trans (by decide)

/-- C3: for the ticket-relative slots, an absent (`None`), empty, or
unparseable relevant plan timestamp resolves to the slot's fixed fallback
time, never SKIP; a SKIP can only come from a successfully parsed timestamp
whose WIB date differs from today's. -/
theorem resolve_fallback_on_bad_data (issue : Issue) (slot : String)
    (fallback todayNow : Int) (raw : Option String)
    (hslot : (slot = "8AM" ∧ raw = issue.customfield_10093) ∨
             (slot = "5PM" ∧ raw = issue.customfield_10094)) :
    parse_issue_datetime none = none ∧
    parse_issue_datetime (some "") = none ∧
    (parse_issue_datetime raw = none →
        resolve_target_time_for_issue issue slot fallback todayNow = some fallback) ∧
    (resolve_target_time_for_issue issue slot fallback todayNow = none →
        ∃ dt, parse_issue_datetime raw = some dt ∧
          dateOf (toWibNaive dt) ≠ dateOf todayNow) := by
  refine ⟨rfl, rfl, ?_, ?_⟩
  · intro hp
    rcases hslot with ⟨hs, hraw⟩ | ⟨hs, hraw⟩ <;> subst hs <;> subst hraw <;>
      simp [resolve_target_time_for_issue, hp]
  · intro hres
    rcases hslot with ⟨hs, hraw⟩ | ⟨hs, hraw⟩ <;> subst hs <;> subst hraw
    · cases hp : parse_issue_datetime issue.customfield_10093 with
      | none => simp [resolve_target_time_for_issue, hp] at hres
      | some dt =>
          refine ⟨dt, rfl, fun hd => ?_⟩
          simp [resolve_target_time_for_issue, hp, hd] at hres
    · cases hp : parse_issue_datetime issue.customfield_10094 with
      | none => simp [resolve_target_time_for_issue, hp] at hres
      | some dt =>
          refine ⟨dt, rfl, fun hd => ?_⟩
          simp [resolve_target_time_for_issue, hp, hd] at hres

/-- Witness for C3: a malformed plan-end timestamp on the `5PM` slot falls
back to the fixed 17:00 (61 200 000 000 µs after midnight). -/
theorem resolve_fallback_on_bad_data_witness :
    resolve_target_time_for_issue
      ⟨"SUP-2", none, none, none, some "not-a-timestamp"⟩
      "5PM" 61200000000 1771830000000000 = some 61200000000 :=
  (resolve_fallback_on_bad_data ⟨"SUP-2", none, none, none, some "not-a-timestamp"⟩
      "5PM" 61200000000 1771830000000000 (some "not-a-timestamp")
      (Or.inr ⟨rfl, rfl⟩)).2.2.1 (by decide)

/-- Helper: when `find_transition_id` misses, no transition in the list
matches case-insensitively. -/
theorem find_transition_id_none (ts : List Transition) (nm : String) :
    find_transition_id ts nm = none →
    ∀ t ∈ ts, strLower t.name ≠ strLower nm := by
  induction ts with
  | nil => intro _ t ht; simp at ht
  | cons t rest ih =>
      intro h u hu
      by_cases hm : strLower t.name = strLower nm
      · simp [find_transition_id, hm] at h
      · rcases List.mem_cons.1 hu with rfl | hu'
        · exact hm
        · simp only [find_transition_id, if_neg hm] at h
          exact ih h u hu'

/-- C4: `find_transition_id` returns the id of the unique case-insensitive
match when one exists, returns `None` when no transition's name matches
ignoring case, and never returns the id of a non-matching transition (every
returned id belongs to a matching transition). -/
theorem find_transition_id_spec (ts : List Transition) (nm : String) :
    (∀ t ∈ ts, strLower t.name = strLower nm →
        (∀ u ∈ ts, strLower u.name = strLower nm → u = t) →
        find_transition_id ts nm = some t.id) ∧
    ((∀ t ∈ ts, strLower t.name ≠ strLower nm) → find_transition_id ts nm = none) ∧
    (∀ r, find_transition_id ts nm = some r →
        ∃ t ∈ ts, strLower t.name = strLower nm ∧ t.id = r) := by
  obtain ⟨hsound, hnone⟩ := find_transition_id_char ts nm
  refine ⟨?_, hnone, hsound⟩
  intro t ht hmatch huniq
  cases hfind : find_transition_id ts nm with
  | none => exact absurd hmatch (find_transition_id_none ts nm hfind t ht)
  | some r =>
      obtain ⟨u, hu, hun, hui⟩ := hsound r hfind
      rw [← hui, huniq u hu hun]

/-- Witness for C4: the requested name differing only in case is resolved
to the matching transition's id. -/
theorem find_transition_id_spec_witness :
    find_transition_id [⟨"11", "INPROGRESS SUPPORT"⟩, ⟨"21", "Support Done"⟩]
      "inprogress support" = some "11" :=
  (find_transition_id_spec
      [⟨"11", "INPROGRESS SUPPORT"⟩, ⟨"21", "Support Done"⟩]
      "inprogress support").1
    ⟨"11", "INPROGRESS SUPPORT"⟩ (by decide) (by decide) (by decide)

/-- Helper: the per-issue loop of `run_automation` is a map — no issue's
outcome depends on any other issue. -/
theorem process_issues_eq_map (env : JiraEnv) (time_slot : String)
    (fallback : Int) (transition_name : String) (issues : List Issue) :
    process_issues env time_slot fallback transition_name issues =
      issues.map fun issue =>
        (issue.key, process_issue_in_slot env time_slot fallback transition_name issue) := by
  induction issues with
  | nil => rfl
  | cons i rest ih => simp [process_issues, ih]

/-- C5: for every env and every non-empty search result, `run_automation`
produces exactly one outcome per issue, in query-result order, and the
outcome at position `i` is a function of issue `i` alone — a date-mismatch
SKIP, an empty transitions list, a transition-name miss, or a failed remote
call on one issue cannot suppress the resolution, wait, and attempt of the
issues after it. -/
theorem run_automation_processes_all_issues (env : JiraEnv) (slot : String)
    (config : SlotConfig) (hS : SCHEDULE slot = some config)
    (hne : search_issues env.searchResponse ≠ []) :
    (run_automation env slot).length = (search_issues env.searchResponse).length ∧
    ∀ i : Nat, (run_automation env slot)[i]? =
      ((search_issues env.searchResponse)[i]?).map fun issue =>
        (issue.key,
          process_issue_in_slot env slot config.target_time config.transition_name issue) := by
  have hrun : run_automation env slot =
      (search_issues env.searchResponse).map fun issue =>
        (issue.key,
          process_issue_in_slot env slot config.target_time config.transition_name issue) := by
    simp only [run_automation, hS]
    rw [if_neg (by simpa using hne)]
    exact process_issues_eq_map env slot config.target_time config.transition_name _
  rw [hrun]
  exact ⟨List.length_map _ _, fun i => List.getElem?_map _ _ i⟩

/-- Witness for C5: a batch of two issues in which the first issue's remote
transition call fails; the second issue is still resolved and attempted,
successfully. -/
theorem run_automation_processes_all_issues_witness :
    (run_automation
      { searchResponse := .response
          [⟨"SUP-1", none, none, some "2026-02-23T08:15:00.000+0700", none⟩,
           ⟨"SUP-2", none, none, some "2026-02-23T09:00:00.000+0700", none⟩] true,
        transitionsFor := fun _ => [⟨"11", "INPROGRESS SUPPORT"⟩],
        transitionResult := fun k _ => if k = "SUP-1" then .httpError "500" else .ok,
        todayNow := 1771830000000000 }
      "8AM")[1]? =
    some ("SUP-2", .processed 32400000000 (.attempted true)) := by
  have h := (run_automation_processes_all_issues
      { searchResponse := .response
          [⟨"SUP-1", none, none, some "2026-02-23T08:15:00.000+0700", none⟩,
           ⟨"SUP-2", none, none, some "2026-02-23T09:00:00.000+0700", none⟩] true,
        transitionsFor := fun _ => [⟨"11", "INPROGRESS SUPPORT"⟩],
        transitionResult := fun k _ => if k = "SUP-1" then .httpError "500" else .ok,
        todayNow := 1771830000000000 }
      "8AM"
      ⟨28800000000, "SUPPORT OPEN", "INPROGRESS SUPPORT",
        "Start work (time from cf[10093])"⟩
      (by decide) (by decide)).2 1
  exact h.trans (by decide)

/-- C6: `transition_issue` returns a `(success, before, after)` triple on
every path — acknowledgment, HTTP error, and any other exception — with the
before-timestamp read immediately prior to the remote call, the
after-timestamp read after it returns or fails, and, for a clock that never
goes backwards, `after >= before` on every outcome; `success` is true
exactly on acknowledgment. -/
theorem transition_issue_timestamps (clock : Nat → Int) (tick : Nat)
    (remote : RemoteResult) (hmono : Monotone clock) :
    (transition_issue clock tick remote).1 = remote.succeeded ∧
    (transition_issue clock tick remote).2.1 = clock tick ∧
    (∃ after, tick < after ∧
        (transition_issue clock tick remote).2.2 = clock after) ∧
    (transition_issue clock tick remote).2.1 ≤
      (transition_issue clock tick remote).2.2 := by
  cases remote with
  | ok => exact ⟨rfl, rfl, ⟨tick + 1, Nat.lt_succ_self _, rfl⟩, hmono (Nat.le_succ _)⟩
  | httpError d => exact ⟨rfl, rfl, ⟨tick + 2, by omega, rfl⟩, hmono (by omega)⟩
  | exc d => exact ⟨rfl, rfl, ⟨tick + 1, Nat.lt_succ_self _, rfl⟩, hmono (Nat.le_succ _)⟩

/-- Witness for C6: on the HTTP-error path with a monotone clock, the
after-timestamp is not earlier than the before-timestamp. -/
theorem transition_issue_timestamps_witness :
    (transition_issue Int.ofNat 0 (.httpError "500")).2.1 ≤
      (transition_issue Int.ofNat 0 (.httpError "500")).2.2 :=
  (transition_issue_timestamps Int.ofNat 0 (.httpError "500")
    (fun _ _ hab => Int.ofNat_le.2 hab)).2.2.2

/-- C8: a failed search — a raised exception or a non-2xx response —
returns the empty list, and `run_automation` with a failing search produces
no outcomes at all (no waits, no transition calls), exactly as it does for
a genuine zero-result search, which is itself a normal completed run. -/
theorem search_failure_degrades (env : JiraEnv) (slot detail : String)
    (issues : List Issue) :
    search_issues (.failure detail) = [] ∧
    search_issues (.response issues false) = [] ∧
    run_automation { env with searchResponse := .failure detail } slot = [] ∧
    run_automation { env with searchResponse := .failure detail } slot =
      run_automation { env with searchResponse := .response [] true } slot := by
  refine ⟨rfl, rfl, ?_, ?_⟩ <;>
    cases h : SCHEDULE slot <;> simp [run_automation, h, search_issues]
